import Mathlib

/-!
Verification development for the deploy-status dashboard
(`tools/deploy-status/deploy_status/`): a shallow embedding of the status
data model (`models.py`), the GitHub source adapters (`github.py`) and the
refresh logic (`app.py`), together with theorems settling the specified
properties of the rollup rules, the fetch pipeline and its error handling.

Conventions of the embedding:
- Python `datetime` values are modelled as `Int` (seconds); ISO-8601
  parsing (`datetime.fromisoformat`, which either returns a value or
  raises `ValueError`) is modelled by an arbitrary function
  `parse : String → Option Int` passed as a parameter (`none` = raises).
- Each external call (a `gh` subprocess or an HTTP GET) is modelled by an
  oracle value enumerating the call's possible outcomes, including its
  failure modes (process exited non-zero, empty/`null` output, exception
  such as a malformed-JSON parse error or a timeout).
- Every adapter returns, besides its result, the list of external calls
  it performed (`Ev`), in the order the `await` statements of the source
  execute them; a sequential `await` loop is embedded as concatenation.
- JSON dictionary lookups `run.get(k, default)` are modelled by record
  fields with the same defaults (`""`, `none`, `0`).
-/

set_option synthInstance.maxSize 1000

set_option maxHeartbeats 1000000

/-- The `Status` enumeration from `models.py`. -/
inductive Status where
  | none
  | success
  | failure
  | running
  | loading
deriving DecidableEq, Repr

/-- Modelled from the spec: the `Commit` dataclass (short sha, first-line
message truncated to a display length, author, commit time) is imported by
`github.py` but its declaration is missing from the copy of `models.py`
under `src/`. -/
structure Commit where
  sha : String
  message : String
  author : String
  date : Option Int
deriving DecidableEq, Repr

/-- The `Workflow` dataclass from `models.py`.  The `actor` attribute is not
declared in the dataclass but is assigned dynamically by
`fetch_environment_status`; it is included here with default `none`. -/
structure Workflow where
  name : String
  display_name : String := ""
  icon : String := "gear"
  status : Status := Status.loading
  run_id : Option Int := Option.none
  time : Option Int := Option.none
  duration_seconds : Option Int := Option.none
  error_lines : List String := []
  repo : String := ""
  branch : String := ""
  actor : Option String := Option.none
deriving DecidableEq, Repr

/-- The `Environment` dataclass from `models.py`.  `actor`, `last_commit` and
the four `health_*` attributes are assigned dynamically by `github.py`;
they are included here with default `none`. -/
structure Environment where
  name : String
  url : String
  repo : String := ""
  branch : String := ""
  status : Status := Status.loading
  run_id : Option Int := Option.none
  time : Option Int := Option.none
  duration_seconds : Option Int := Option.none
  error_lines : List String := []
  workflows : List Workflow := []
  actor : Option String := Option.none
  last_commit : Option Commit := Option.none
  health_code : Option Int := Option.none
  health_latency_ms : Option Int := Option.none
  health_ok : Option Bool := Option.none
  health_error : Option String := Option.none
deriving DecidableEq, Repr

/-- The `Environment.has_workflows` property from `models.py`. -/
def Environment.has_workflows (env : Environment) : Bool :=
  0 < env.workflows.length

/-- The `Environment.overall_status` property from `models.py`: the rollup of
the workflow statuses when there are workflows, else the environment's own
stored status. -/
def Environment.overall_status (env : Environment) : Status :=
  if ¬ env.has_workflows then env.status
  else
    let statuses := env.workflows.map (fun w => w.status)
    if Status.failure ∈ statuses then Status.failure
    else if Status.running ∈ statuses then Status.running
    else if Status.loading ∈ statuses then Status.loading
    else if statuses.all (fun s => s = Status.success) then Status.success
    else Status.none

/-- Modelled from the spec: the `BranchCompareConfig` dataclass (a base
branch paired with a head branch to diff), imported by `github.py` but
missing from the copy of `models.py` under `src/`. -/
structure BranchCompareConfig where
  base : String
  head : String
deriving DecidableEq, Repr

/-- Modelled from the spec: the `BranchComparison` dataclass (base/head
names, ahead/behind counts, recent unique commits), imported by
`github.py` but missing from the copy of `models.py` under `src/`.
`fetch_branch_comparison` constructs it with counts `0` and no commits. -/
structure BranchComparison where
  base : String
  head : String
  ahead_by : Int := 0
  behind_by : Int := 0
  commits : List Commit := []
deriving DecidableEq, Repr

/-- Modelled from the spec: the `Release` dataclass (tag, name, author,
publish time, optional build run id and its `Status`, defaulting to
`NONE`), imported by `github.py` but missing from the copy of `models.py`
under `src/`. -/
structure Release where
  tag : String
  name : String
  author : String
  published : Option Int := Option.none
  build_run_id : Option Int := Option.none
  build_status : Status := Status.none
deriving DecidableEq, Repr

/-- The `App` dataclass from `models.py`.  `compare_configs`, `comparisons`,
`track_releases` and `latest_release` are referenced by `github.py` but
not declared in the copy of `models.py` under `src/`; they are included
per the spec's App attributes, with empty/neutral defaults. -/
structure App where
  name : String
  icon : String
  dev : Environment
  prod : Environment
  loading : Bool := true
  compare_configs : List BranchCompareConfig := []
  comparisons : List BranchComparison := []
  track_releases : Bool := false
  latest_release : Option Release := Option.none
deriving DecidableEq, Repr

/-- The `App.overall_status` property from `models.py`: rollup of the two
environments' effective statuses. -/
def App.overall_status (a : App) : Status :=
  let dev_status := a.dev.overall_status
  let prod_status := a.prod.overall_status
  if dev_status = Status.failure ∨ prod_status = Status.failure then Status.failure
  else if dev_status = Status.running ∨ prod_status = Status.running then Status.running
  else if dev_status = Status.loading ∨ prod_status = Status.loading then Status.loading
  else if dev_status = Status.success ∨ prod_status = Status.success then Status.success
  else Status.none

/-- Helper: the App rollup as a pure function of the two effective
statuses (the body of `App.overall_status`). -/
def rollupApp (dev_status prod_status : Status) : Status :=
  if dev_status = Status.failure ∨ prod_status = Status.failure then Status.failure
  else if dev_status = Status.running ∨ prod_status = Status.running then Status.running
  else if dev_status = Status.loading ∨ prod_status = Status.loading then Status.loading
  else if dev_status = Status.success ∨ prod_status = Status.success then Status.success
  else Status.none

/-! ## Source adapters (`github.py`)

External calls are recorded as events.  One `Ev` per `gh` subprocess
invocation or HTTP request, in the order the source awaits them. -/

/-- One external call performed by a source adapter. -/
inductive Ev where
  /-- The `gh api repos/{repo}/actions/runs?branch={branch}&per_page=1` -/
  | runsApi (repo branch : String) (workflow_name : Option String)
  /-- The `gh run list -R repo --branch branch --workflow name -L 1` (fallback) -/
  | runList (repo branch workflow_name : String)
  /-- The `gh api repos/{repo}/actions/runs/{run_id}` (actor lookup) -/
  | actorApi (repo : String) (run_id : Int)
  /-- The `gh run view run_id -R repo --log-failed` -/
  | logView (repo : String) (run_id : Int)
  /-- The `gh api repos/{repo}/commits/{branch}` -/
  | commitApi (repo branch : String)
  /-- The `gh api repos/{repo}/compare/{base}...{head}` -/
  | compareApi (repo base head : String)
  /-- The `gh api repos/{repo}/releases/latest` -/
  | releaseApi (repo : String)
  /-- The `gh api repos/{repo}/actions/runs?event=release&per_page=5` -/
  | releaseRuns (repo : String)
  /-- HTTP `GET https://{url}` (health probe) -/
  | httpGet (url : String)
deriving DecidableEq, Repr

/-- The jq-projected record of the most recent workflow run, as read from
the `gh api .../actions/runs` output by `fetch_workflow_status`.  Fields
default like the corresponding `run.get(key, default)` calls. -/
structure RunRecord where
  id : Option Int := Option.none
  status : String := ""
  conclusion : String := ""
  created_at : String := ""
  updated_at : String := ""
  actor : String := ""
  workflow_name : String := ""
deriving DecidableEq, Repr

/-- Outcome of the `gh api .../actions/runs` call in
`fetch_workflow_status`: an exception anywhere in the `try` block
(subprocess failure, JSON parse error, timeout), a non-zero exit code,
empty/`null` stdout, or a parsed run record. -/
inductive RunsApiOutcome where
  | exc (msg : String)
  | procError (stderr : String)
  | emptyOutput
  | ok (run : RunRecord)
deriving DecidableEq, Repr

/-- The `--json` record read by `_fetch_workflow_status_by_name` from
`gh run list`. -/
structure ByNameRun where
  status : String := ""
  conclusion : String := ""
  createdAt : String := ""
  updatedAt : String := ""
  databaseId : Option Int := Option.none
deriving DecidableEq, Repr

/-- Outcome of the `gh run list` call in
`_fetch_workflow_status_by_name`. -/
inductive RunListOutcome where
  | exc (msg : String)
  | procError
  | emptyData
  | ok (run : ByNameRun)
deriving DecidableEq, Repr

/-- Outcome of the actor-lookup sub-call in
`_fetch_workflow_status_by_name`: non-zero exit (actor stays `""`) or the
stripped stdout. -/
inductive ActorOutcome where
  | fail
  | ok (stdout : String)
deriving DecidableEq, Repr

/-- The result dictionary returned by the workflow-run fetches.  A key
absent from the Python dict is a `none`/default field here; callers read
it with `result.get(key)` semantics. -/
structure FetchResult where
  status : Status
  run_id : Option Int := Option.none
  time : Option Int := Option.none
  duration_seconds : Option Int := Option.none
  actor : Option String := Option.none
  error : Option String := Option.none
deriving DecidableEq, Repr

/-- Status classification shared by `fetch_workflow_status` (lines 76-81),
`_fetch_workflow_status_by_name` (lines 155-160) and
`fetch_latest_release` (lines 450-455) of `github.py`. -/
def classifyRun (status_str conclusion : String) : Status :=
  if status_str = "completed" then
    (if conclusion = "success" then Status.success else Status.failure)
  else if status_str = "in_progress" ∨ status_str = "queued" ∨ status_str = "waiting" then
    Status.running
  else Status.none

/-- The time/duration computation of both workflow-run fetches:
`time = fromisoformat(created)` and
`duration = int((updated − created).total_seconds())`, with a `ValueError`
from either parse caught (leaving the later assignments unmade). -/
def computeTimeDuration (parse : String → Option Int) (created updated : String) :
    Option Int × Option Int :=
  if created = "" then (Option.none, Option.none)
  else
    match parse created with
    | Option.none => (Option.none, Option.none)
    | Option.some t =>
      if updated = "" then (Option.some t, Option.none)
      else
        match parse updated with
        | Option.none => (Option.some t, Option.none)
        | Option.some u => (Option.some t, Option.some (u - t))

/-- The success-path result record built by both workflow-run fetches. -/
def mkRunResult (parse : String → Option Int) (run : RunRecord) : FetchResult :=
  let td := computeTimeDuration parse run.created_at run.updated_at
  { status := classifyRun run.status run.conclusion
    run_id := run.id
    time := td.1
    duration_seconds := td.2
    actor := Option.some run.actor }

/-- Python truthiness of an optional integer (`if run_id:`): false for
`None` and for `0`. -/
def truthyId (id : Option Int) : Bool :=
  match id with
  | Option.none => false
  | Option.some k => k ≠ 0

/-- The `_fetch_workflow_status_by_name` from `github.py` (lines 95-171):
`gh run list` for a named workflow, an actor lookup guarded by the
truthiness of the run id, classification, time/duration; any failure
yields `{"status": Status.NONE}`. -/
def fetch_workflow_status_by_name (parse : String → Option Int)
    (repo branch workflow_name : String)
    (o : RunListOutcome) (ao : ActorOutcome) : FetchResult × List Ev :=
  match o with
  | RunListOutcome.exc _ => ({ status := Status.none }, [Ev.runList repo branch workflow_name])
  | RunListOutcome.procError => ({ status := Status.none }, [Ev.runList repo branch workflow_name])
  | RunListOutcome.emptyData => ({ status := Status.none }, [Ev.runList repo branch workflow_name])
  | RunListOutcome.ok run =>
    let rid := run.databaseId
    let actorPart : String × List Ev :=
      if truthyId rid then
        match ao with
        | ActorOutcome.fail => ("", [Ev.actorApi repo (rid.getD 0)])
        | ActorOutcome.ok s => (s, [Ev.actorApi repo (rid.getD 0)])
      else ("", [])
    let td := computeTimeDuration parse run.createdAt run.updatedAt
    ({ status := classifyRun run.status run.conclusion
       run_id := rid
       time := td.1
       duration_seconds := td.2
       actor := Option.some actorPart.1 },
     Ev.runList repo branch workflow_name :: actorPart.2)

/-- The `fetch_workflow_status` from `github.py` (lines 13-92): early return on
empty repo/branch, one `gh api .../actions/runs` call, fallback to
`_fetch_workflow_status_by_name` on a workflow-name mismatch, and the
catch-all exception handler returning `{"status": NONE, "error": ...}`.
(The mismatch check guards on `workflow_name and ...`; callers pass either
`None` or a non-empty name, represented here by the `Option`.) -/
def fetch_workflow_status (parse : String → Option Int)
    (repo branch : String) (workflow_name : Option String)
    (o : RunsApiOutcome) (fb : RunListOutcome) (fbActor : ActorOutcome) :
    FetchResult × List Ev :=
  if repo = "" ∨ branch = "" then ({ status := Status.none }, [])
  else
    match o with
    | RunsApiOutcome.exc msg =>
      ({ status := Status.none, error := Option.some msg },
       [Ev.runsApi repo branch workflow_name])
    | RunsApiOutcome.procError stderr =>
      ({ status := Status.none, error := Option.some stderr },
       [Ev.runsApi repo branch workflow_name])
    | RunsApiOutcome.emptyOutput =>
      ({ status := Status.none }, [Ev.runsApi repo branch workflow_name])
    | RunsApiOutcome.ok run =>
      match workflow_name with
      | Option.some n =>
        if run.workflow_name ≠ n then
          let fbr := fetch_workflow_status_by_name parse repo branch n fb fbActor
          (fbr.1, Ev.runsApi repo branch workflow_name :: fbr.2)
        else (mkRunResult parse run, [Ev.runsApi repo branch workflow_name])
      | Option.none => (mkRunResult parse run, [Ev.runsApi repo branch workflow_name])

/-- Outcome of the `gh run view --log-failed` call in `fetch_error_logs`. -/
inductive LogOutcome where
  | exc
  | procError
  | ok (stdout : String)
deriving DecidableEq, Repr

/-- The `fetch_error_logs` from `github.py` (lines 174-198): returns the last
`max_lines` lines of `stdout.decode().strip().split("\n")`, or `[]` on any
failure.  Python's `"".split("\n")` is `[""]`, matched by `splitOn`. -/
def fetch_error_logs (repo : String) (run_id : Int) (o : LogOutcome)
    (max_lines : Nat := 500) : List String × List Ev :=
  match o with
  | LogOutcome.exc => ([], [Ev.logView repo run_id])
  | LogOutcome.procError => ([], [Ev.logView repo run_id])
  | LogOutcome.ok stdout =>
    let lines := stdout.trim.splitOn "\n"
    (if lines.length > max_lines then lines.drop (lines.length - max_lines) else lines,
     [Ev.logView repo run_id])

/-- The jq-projected commit record read by `fetch_latest_commit`. -/
structure CommitData where
  sha : String := ""
  message : String := ""
  author : String := ""
  date : String := ""
deriving DecidableEq, Repr

/-- Outcome of the `gh api repos/{repo}/commits/{branch}` call. -/
inductive CommitOutcome where
  | exc
  | procError
  | ok (data : CommitData)
deriving DecidableEq, Repr

/-- Python `s.split("\n")[0][:n]`: first line truncated to `n` characters
(`split` on a nonempty separator never returns an empty list). -/
def firstLineTake (s : String) (n : Nat) : String :=
  ((s.splitOn "\n").headD "").take n

/-- The `fetch_latest_commit` from `github.py` (lines 201-245): early return
`None` on empty repo/branch, one `gh api` call, date parse with
`ValueError` caught, message truncated to the first 60 characters of its
first line; `None` on any failure. -/
def fetch_latest_commit (parse : String → Option Int) (repo branch : String)
    (o : CommitOutcome) : Option Commit × List Ev :=
  if repo = "" ∨ branch = "" then (Option.none, [])
  else
    match o with
    | CommitOutcome.exc => (Option.none, [Ev.commitApi repo branch])
    | CommitOutcome.procError => (Option.none, [Ev.commitApi repo branch])
    | CommitOutcome.ok data =>
      let commit_date := if data.date = "" then Option.none else parse data.date
      (Option.some
        { sha := data.sha
          message := firstLineTake data.message 60
          author := data.author
          date := commit_date },
       [Ev.commitApi repo branch])

/-- The jq-projected comparison record read by `fetch_branch_comparison`
(counts default to `0` per `data.get(key, 0)`). -/
structure CompareData where
  ahead_by : Int := 0
  behind_by : Int := 0
  commits : List CommitData := []
deriving DecidableEq, Repr

/-- Outcome of the `gh api repos/{repo}/compare/...` call. -/
inductive CompareOutcome where
  | exc
  | procError
  | ok (data : CompareData)
deriving DecidableEq, Repr

/-- The `fetch_branch_comparison` from `github.py` (lines 248-298): starts from
a fresh `BranchComparison(base, head)`, returns it unchanged on empty repo
or any failure; on success fills counts and the parsed commit list
(messages truncated to 50 characters of their first line). -/
def fetch_branch_comparison (parse : String → Option Int) (repo : String)
    (config : BranchCompareConfig) (o : CompareOutcome) :
    BranchComparison × List Ev :=
  let comparison : BranchComparison := { base := config.base, head := config.head }
  if repo = "" then (comparison, [])
  else
    match o with
    | CompareOutcome.exc => (comparison, [Ev.compareApi repo config.base config.head])
    | CompareOutcome.procError => (comparison, [Ev.compareApi repo config.base config.head])
    | CompareOutcome.ok data =>
      ({ comparison with
          ahead_by := data.ahead_by
          behind_by := data.behind_by
          commits := data.commits.map (fun c =>
            { sha := c.sha
              message := firstLineTake c.message 50
              author := c.author
              date := if c.date = "" then Option.none else parse c.date }) },
       [Ev.compareApi repo config.base config.head])

/-- Outcome of the HTTP GET in `fetch_health_check`: the three
exception branches of the source, or a response. -/
inductive HealthOutcome where
  | timeout
  | connectError
  | exc (msg : String)
  | ok (status_code : Int) (latency_ms : Int)
deriving DecidableEq, Repr

/-- The `fetch_health_check` from `github.py` (lines 340-364): no-op on empty
URL; on response records code, latency and `ok = 200 ≤ code < 400`; each
exception branch sets `health_ok = False` with its diagnostic string
(generic exceptions truncated to 50 characters). -/
def fetch_health_check (env : Environment) (o : HealthOutcome) :
    Environment × List Ev :=
  if env.url = "" then (env, [])
  else
    match o with
    | HealthOutcome.timeout =>
      ({ env with health_ok := Option.some false, health_error := Option.some "Timeout" },
       [Ev.httpGet env.url])
    | HealthOutcome.connectError =>
      ({ env with health_ok := Option.some false, health_error := Option.some "Connection failed" },
       [Ev.httpGet env.url])
    | HealthOutcome.exc msg =>
      ({ env with health_ok := Option.some false, health_error := Option.some (msg.take 50) },
       [Ev.httpGet env.url])
    | HealthOutcome.ok code latency =>
      ({ env with health_code := Option.some code, health_latency_ms := Option.some latency, health_ok := Option.some (decide (200 ≤ code ∧ code < 400)) },
       [Ev.httpGet env.url])

/-- The jq-projected release record read by `fetch_latest_release`. -/
structure ReleaseData where
  tag : String := ""
  name : String := ""
  published : String := ""
  author : String := ""
deriving DecidableEq, Repr

/-- The jq-projected record of the correlated release-triggered run. -/
structure ReleaseRunData where
  id : Option Int := Option.none
  status : String := ""
  conclusion : String := ""
deriving DecidableEq, Repr

/-- Outcome of the release-run correlation call (`gh api
.../actions/runs?event=release`): non-zero exit or empty/`null` output
leave the release's build fields untouched. -/
inductive ReleaseRunOutcome where
  | procError
  | emptyOutput
  | ok (run : ReleaseRunData)
deriving DecidableEq, Repr

/-- Outcome of the `gh api repos/{repo}/releases/latest` call, paired with
the correlation call's outcome on success; `exc` covers an exception
anywhere in the `try` block. -/
inductive ReleaseOutcome where
  | exc
  | procError
  | ok (data : ReleaseData) (ro : ReleaseRunOutcome)
deriving DecidableEq, Repr

/-- The `fetch_latest_release` from `github.py` (lines 392-460): `None` on any
failure of the release call; a best-effort second call correlates the
release to a build run, classified with the shared status table; a failed
or empty correlation leaves `build_status = NONE`. -/
def fetch_latest_release (parse : String → Option Int) (repo : String)
    (o : ReleaseOutcome) : Option Release × List Ev :=
  match o with
  | ReleaseOutcome.exc => (Option.none, [Ev.releaseApi repo])
  | ReleaseOutcome.procError => (Option.none, [Ev.releaseApi repo])
  | ReleaseOutcome.ok data ro =>
    let published := if data.published = "" then Option.none else parse data.published
    let release : Release :=
      { tag := data.tag, name := data.name, author := data.author, published := published }
    match ro with
    | ReleaseRunOutcome.procError =>
      (Option.some release, [Ev.releaseApi repo, Ev.releaseRuns repo])
    | ReleaseRunOutcome.emptyOutput =>
      (Option.some release, [Ev.releaseApi repo, Ev.releaseRuns repo])
    | ReleaseRunOutcome.ok run =>
      (Option.some
        { release with
            build_run_id := run.id
            build_status := classifyRun run.status run.conclusion },
       [Ev.releaseApi repo, Ev.releaseRuns repo])

/-! ## Environment and App fetchers (`github.py` lines 301-389) -/

/-- The external responses one workflow-run fetch can observe: the primary
runs call, the by-name fallback, its actor sub-call, and the chained
error-log call. -/
structure WfOracle where
  runs : RunsApiOutcome
  runList : RunListOutcome
  actor : ActorOutcome
  logs : LogOutcome
deriving Repr

/-- The external responses one `fetch_environment_status` call can
observe: one `WfOracle` per workflow index, one for the environment's own
fetch, and the commit call's outcome. -/
structure EnvOracle where
  wf : Nat → WfOracle
  own : WfOracle
  commit : CommitOutcome

/-- The body of the per-workflow iteration of `fetch_environment_status`
(lines 309-321 of `github.py`): one workflow-run fetch, the result fields
copied into the workflow, and the error-log fetch chained when the new
status is `FAILURE` and the run id is truthy. -/
def fetchOneWorkflow (parse : String → Option Int) (w : Workflow)
    (o : WfOracle) : Workflow × List Ev :=
  let fr := fetch_workflow_status parse w.repo w.branch (Option.some w.name)
      o.runs o.runList o.actor
  let w1 : Workflow :=
    { w with
        status := fr.1.status
        run_id := fr.1.run_id
        time := fr.1.time
        duration_seconds := fr.1.duration_seconds
        actor := fr.1.actor }
  if w1.status = Status.failure ∧ truthyId w1.run_id then
    let logs := fetch_error_logs w.repo (w1.run_id.getD 0) o.logs
    ({ w1 with error_lines := logs.1 }, fr.2 ++ logs.2)
  else (w1, fr.2)

/-- The no-workflows branch of `fetch_environment_status` (lines 324-332):
one workflow-run fetch against the environment's own repo/branch, fields
copied into the environment, error-log chaining on `FAILURE` with a
truthy run id. -/
def fetchEnvOwn (parse : String → Option Int) (env : Environment)
    (o : WfOracle) : Environment × List Ev :=
  let fr := fetch_workflow_status parse env.repo env.branch Option.none
      o.runs o.runList o.actor
  let env1 : Environment :=
    { env with
        status := fr.1.status
        run_id := fr.1.run_id
        time := fr.1.time
        duration_seconds := fr.1.duration_seconds
        actor := fr.1.actor }
  if env1.status = Status.failure ∧ truthyId env1.run_id then
    let logs := fetch_error_logs env.repo (env1.run_id.getD 0) o.logs
    ({ env1 with error_lines := logs.1 }, fr.2 ++ logs.2)
  else (env1, fr.2)

/-- The `fetch_environment_status` from `github.py` (lines 301-337): empty
repo → `Status = NONE`, return at once with no external call; otherwise
the per-workflow loop (a sequential `await` per workflow, embedded as
in-order concatenation of each workflow's events) or the environment's own
fetch, followed by the latest-commit fetch. -/
def fetch_environment_status (parse : String → Option Int)
    (env : Environment) (o : EnvOracle) : Environment × List Ev :=
  if env.repo = "" then ({ env with status := Status.none }, [])
  else
    let step1 : Environment × List Ev :=
      if env.has_workflows then
        let fetched := env.workflows.enum.map
          (fun p => fetchOneWorkflow parse p.2 (o.wf p.1))
        ({ env with workflows := fetched.map Prod.fst },
         (fetched.map Prod.snd).flatten)
      else fetchEnvOwn parse env o.own
    let commitFetch := fetch_latest_commit parse env.repo env.branch o.commit
    ({ step1.1 with last_commit := commitFetch.1 }, step1.2 ++ commitFetch.2)

/-- The external responses one `fetch_app_status` call can observe. -/
structure AppOracle where
  dev : EnvOracle
  prod : EnvOracle
  compare : Nat → CompareOutcome
  release : ReleaseOutcome

/-- The `fetch_app_status` from `github.py` (lines 367-389): both environment
fetches (an `asyncio.gather`; its event interleaving is represented here
as dev's events then prod's, which no theorem below relies on), then the
configured branch comparisons against `app.dev.repo or app.prod.repo`,
the optional release fetch, and finally `loading = False`. -/
def fetch_app_status (parse : String → Option Int) (a : App)
    (o : AppOracle) : App × List Ev :=
  let devFetch := fetch_environment_status parse a.dev o.dev
  let prodFetch := fetch_environment_status parse a.prod o.prod
  let a1 : App := { a with dev := devFetch.1, prod := prodFetch.1 }
  let repo := if a1.dev.repo ≠ "" then a1.dev.repo else a1.prod.repo
  let step2 : App × List Ev :=
    if repo ≠ "" ∧ a1.compare_configs ≠ [] then
      let fetched := a1.compare_configs.enum.map
        (fun p => fetch_branch_comparison parse repo p.2 (o.compare p.1))
      ({ a1 with comparisons := fetched.map Prod.fst },
       (fetched.map Prod.snd).flatten)
    else (a1, [])
  let step3 : App × List Ev :=
    if step2.1.track_releases ∧ repo ≠ "" then
      let rel := fetch_latest_release parse repo o.release
      ({ step2.1 with latest_release := rel.1 }, rel.2)
    else (step2.1, [])
  ({ step3.1 with loading := false },
   devFetch.2 ++ prodFetch.2 ++ step2.2 ++ step3.2)

/-! ## Refresh reset (`app.py` lines 184-194) -/

/-- The per-app part of `DeployStatusApp.action_refresh`: `loading = True`,
both environments' own statuses and every workflow's status reset to
`LOADING`.  No other field (in particular no `error_lines`) is touched. -/
def refreshResetApp (a : App) : App :=
  { a with
      loading := true
      dev := { a.dev with
        status := Status.loading
        workflows := a.dev.workflows.map (fun w => { w with status := Status.loading }) }
      prod := { a.prod with
        status := Status.loading
        workflows := a.prod.workflows.map (fun w => { w with status := Status.loading }) } }

/-- The error-lines invariant the spec states for a Workflow:
`error_lines` is empty unless `Status = FAILURE`. -/
def wfErrInv (w : Workflow) : Prop :=
  w.status ≠ Status.failure → w.error_lines = []

/-- The error-lines invariant for an Environment's own fields. -/
def envErrInv (env : Environment) : Prop :=
  env.status ≠ Status.failure → env.error_lines = []

instance instDecWfErrInv (w : Workflow) : Decidable (wfErrInv w) :=
  inferInstanceAs (Decidable (_ → _))

instance instDecEnvErrInv (env : Environment) : Decidable (envErrInv env) :=
  inferInstanceAs (Decidable (_ → _))

/-! ## Theorems -/

/-- Helper: sample environment with `Status = NONE` and no repo (mirrors
the "not deployed" `PROD` entries of `get_apps`). -/
def envNone : Environment :=
  { name := "PROD", url := "", status := Status.none }

/-- Helper: sample environment whose own status is `SUCCESS`. -/
def envSuccess : Environment :=
  { name := "DEV", url := "d.example.org", repo := "o/r", branch := "develop",
    status := Status.success }

/-- Helper: sample app over the two sample environments. -/
def appSample : App :=
  { name := "Portal", icon := "globe", dev := envSuccess, prod := envNone }

/-- Helper: sample workflows for the C2 witness (all SUCCESS). -/
def wfA : Workflow :=
  { name := "Build Production Images", display_name := "Image",
    repo := "o/r", branch := "main", status := Status.success }

/-- Helper: second sample workflow. -/
def wfB : Workflow :=
  { name := "Release Helm Chart", display_name := "Helm",
    repo := "o/r", branch := "main", status := Status.success }

/-- Helper: environment with two workflows. -/
def envWfs : Environment :=
  { name := "PROD", url := "p.example.org", repo := "o/r", branch := "main",
    workflows := [wfA, wfB] }


/-- Helper: the always-failing ISO-8601 parse (no timestamp parses). -/
def pnone : String → Option Int := fun _ => Option.none

/-- Helper: a per-workflow oracle in which every external call fails. -/
def oracleFail : WfOracle :=
  { runs := RunsApiOutcome.procError "boom", runList := RunListOutcome.procError,
    actor := ActorOutcome.fail, logs := LogOutcome.procError }

/-- Helper: an environment oracle in which every external call fails. -/
def envOracleFail : EnvOracle :=
  { wf := fun _ => oracleFail, own := oracleFail, commit := CommitOutcome.procError }

/-- Helper: an app oracle in which every external call fails. -/
def appOracleFail : AppOracle :=
  { dev := envOracleFail, prod := envOracleFail,
    compare := fun _ => CompareOutcome.procError, release := ReleaseOutcome.procError }

/-- Helper: a workflow that failed in the previous cycle: `FAILURE` with
its fetched error log attached (a reachable state, per C8). -/
def wfFailed : Workflow :=
  { name := "Build", repo := "o/r", branch := "main",
    status := Status.failure, run_id := Option.some 7,
    error_lines := ["error line"] }

/-- Helper: app whose dev environment holds the failed workflow. -/
def appFailed : App :=
  { name := "A", icon := "i",
    dev := { name := "DEV", url := "", repo := "o/r", branch := "main",
             workflows := [wfFailed] },
    prod := envNone }

/-- Helper: a fresh workflow, before any fetch. -/
def wfPlain : Workflow :=
  { name := "Build", repo := "o/r", branch := "main" }

/-- Helper: oracle whose run fetch reports a completed failure with
run id 42 and whose log fetch returns one line. -/
def oracle42 : WfOracle :=
  { runs := RunsApiOutcome.ok
      { id := Option.some 42, status := "completed", conclusion := "failure",
        workflow_name := "Build" },
    runList := RunListOutcome.procError, actor := ActorOutcome.fail,
    logs := LogOutcome.ok "boom" }

/-- Helper: like `oracle42` but the reported run id is `0`, which Python
truthiness treats as absent. -/
def oracleZero : WfOracle :=
  { runs := RunsApiOutcome.ok
      { id := Option.some 0, status := "completed", conclusion := "failure",
        workflow_name := "Build" },
    runList := RunListOutcome.procError, actor := ActorOutcome.fail,
    logs := LogOutcome.ok "boom" }

/-- Helper: an environment with two workflows, for the serialization
counterexample. -/
def envTwo : Environment :=
  { name := "PROD", url := "p.example.org", repo := "o/r", branch := "main",
    workflows := [ { name := "W1", repo := "o/r", branch := "main" },
                   { name := "W2", repo := "o/r", branch := "main" } ] }

/-- Helper: an oracle under which each workflow fetch performs two
external calls (the runs call reports a mismatched workflow name, forcing
the `gh run list` fallback, which exits non-zero). -/
def oracleTwo : EnvOracle :=
  { wf := fun _ =>
      { runs := RunsApiOutcome.ok
          { status := "completed", conclusion := "success", workflow_name := "Other" },
        runList := RunListOutcome.procError, actor := ActorOutcome.fail,
        logs := LogOutcome.procError },
    own := oracleFail, commit := CommitOutcome.procError }

/-- Helper: an environment with no repository configured. -/
def envNoRepo : Environment :=
  { name := "DEV", url := "", status := Status.none }


/-- C1: `App.overall_status` rolls up the two environments' effective
statuses with precedence FAILURE > RUNNING > LOADING > SUCCESS > NONE,
where SUCCESS needs only one environment to be SUCCESS (and none to be
FAILURE/RUNNING/LOADING); in particular the SUCCESS-iff
characterization. -/
theorem C1_app_rollup (a : App) :
    a.overall_status = rollupApp a.dev.overall_status a.prod.overall_status ∧
    ∀ d p : Status,
      ((d = Status.failure ∨ p = Status.failure) → rollupApp d p = Status.failure) ∧
      (¬(d = Status.failure ∨ p = Status.failure) →
        (d = Status.running ∨ p = Status.running) → rollupApp d p = Status.running) ∧
      (¬(d = Status.failure ∨ p = Status.failure) →
        ¬(d = Status.running ∨ p = Status.running) →
        (d = Status.loading ∨ p = Status.loading) → rollupApp d p = Status.loading) ∧
      (¬(d = Status.failure ∨ p = Status.failure) →
        ¬(d = Status.running ∨ p = Status.running) →
        ¬(d = Status.loading ∨ p = Status.loading) →
        (d = Status.success ∨ p = Status.success) → rollupApp d p = Status.success) ∧
      (¬(d = Status.failure ∨ p = Status.failure) →
        ¬(d = Status.running ∨ p = Status.running) →
        ¬(d = Status.loading ∨ p = Status.loading) →
        ¬(d = Status.success ∨ p = Status.success) → rollupApp d p = Status.none) ∧
      (rollupApp d p = Status.success ↔
        (d ≠ Status.failure ∧ p ≠ Status.failure ∧
         d ≠ Status.running ∧ p ≠ Status.running ∧
         d ≠ Status.loading ∧ p ≠ Status.loading ∧
         (d = Status.success ∨ p = Status.success))) :=
  ⟨rfl, by intro d p; cases d <;> cases p <;> decide⟩

/-- Witness for C1 at the sample app: one environment SUCCESS, the other
NONE, rollup SUCCESS. -/
theorem C1_app_rollup_witness :
    appSample.overall_status = Status.success ∧
    appSample.dev.overall_status = Status.success ∧
    appSample.prod.overall_status = Status.none := by
  refine ⟨?_, by decide, by decide⟩
  have h := (C1_app_rollup appSample).1
  rw [h]
  decide

/-- C2: with a non-empty workflows list, `Environment.overall_status` is
FAILURE iff some workflow is FAILURE; barring that, RUNNING iff some is
RUNNING; barring those, LOADING iff some is LOADING; barring those,
SUCCESS iff all (of the non-empty list) are SUCCESS, and NONE otherwise. -/
theorem C2_workflow_rollup (env : Environment) (h : env.has_workflows = true) :
    (env.overall_status = Status.failure ↔ ∃ w ∈ env.workflows, w.status = Status.failure) ∧
    ((¬ ∃ w ∈ env.workflows, w.status = Status.failure) →
      (env.overall_status = Status.running ↔ ∃ w ∈ env.workflows, w.status = Status.running)) ∧
    ((¬ ∃ w ∈ env.workflows, w.status = Status.failure) →
      (¬ ∃ w ∈ env.workflows, w.status = Status.running) →
      (env.overall_status = Status.loading ↔ ∃ w ∈ env.workflows, w.status = Status.loading)) ∧
    ((¬ ∃ w ∈ env.workflows, w.status = Status.failure) →
      (¬ ∃ w ∈ env.workflows, w.status = Status.running) →
      (¬ ∃ w ∈ env.workflows, w.status = Status.loading) →
      ((env.overall_status = Status.success ↔
          env.workflows ≠ [] ∧ ∀ w ∈ env.workflows, w.status = Status.success) ∧
        ((¬ ∀ w ∈ env.workflows, w.status = Status.success) →
          env.overall_status = Status.none))) := by
  have hne : env.workflows ≠ [] := by
    have hp : 0 < env.workflows.length := of_decide_eq_true h
    exact List.ne_nil_of_length_pos hp
  have hf : (Status.failure ∈ env.workflows.map (fun w => w.status)) ↔
      (∃ w ∈ env.workflows, w.status = Status.failure) := by simp [List.mem_map]
  have hr : (Status.running ∈ env.workflows.map (fun w => w.status)) ↔
      (∃ w ∈ env.workflows, w.status = Status.running) := by simp [List.mem_map]
  have hl : (Status.loading ∈ env.workflows.map (fun w => w.status)) ↔
      (∃ w ∈ env.workflows, w.status = Status.loading) := by simp [List.mem_map]
  have hs : (((env.workflows.map (fun w => w.status)).all
        (fun s => s = Status.success)) = true) ↔
      (∀ w ∈ env.workflows, w.status = Status.success) := by
    simp [List.all_eq_true]
  have hov : env.overall_status =
      (if Status.failure ∈ env.workflows.map (fun w => w.status) then Status.failure
       else if Status.running ∈ env.workflows.map (fun w => w.status) then Status.running
       else if Status.loading ∈ env.workflows.map (fun w => w.status) then Status.loading
       else if (env.workflows.map (fun w => w.status)).all (fun s => s = Status.success)
         then Status.success
       else Status.none) := by
    simp [Environment.overall_status, h]
  rw [hov]
  split_ifs with c1 c2 c3 c4
  · exact ⟨iff_of_true rfl (hf.mp c1),
      fun hnf => absurd (hf.mp c1) hnf,
      fun hnf _ => absurd (hf.mp c1) hnf,
      fun hnf _ _ => absurd (hf.mp c1) hnf⟩
  · exact ⟨iff_of_false (by decide) (fun hx => c1 (hf.mpr hx)),
      fun _ => iff_of_true rfl (hr.mp c2),
      fun _ hnr => absurd (hr.mp c2) hnr,
      fun _ hnr _ => absurd (hr.mp c2) hnr⟩
  · exact ⟨iff_of_false (by decide) (fun hx => c1 (hf.mpr hx)),
      fun _ => iff_of_false (by decide) (fun hx => c2 (hr.mpr hx)),
      fun _ _ => iff_of_true rfl (hl.mp c3),
      fun _ _ hnl => absurd (hl.mp c3) hnl⟩
  · exact ⟨iff_of_false (by decide) (fun hx => c1 (hf.mpr hx)),
      fun _ => iff_of_false (by decide) (fun hx => c2 (hr.mpr hx)),
      fun _ _ => iff_of_false (by decide) (fun hx => c3 (hl.mpr hx)),
      fun _ _ _ => ⟨iff_of_true rfl ⟨hne, hs.mp c4⟩,
        fun hna => absurd (hs.mp c4) hna⟩⟩
  · exact ⟨iff_of_false (by decide) (fun hx => c1 (hf.mpr hx)),
      fun _ => iff_of_false (by decide) (fun hx => c2 (hr.mpr hx)),
      fun _ _ => iff_of_false (by decide) (fun hx => c3 (hl.mpr hx)),
      fun _ _ _ => ⟨iff_of_false (by decide) (fun hx => c4 (hs.mpr hx.2)),
        fun _ => rfl⟩⟩

/-- Witness for C2 at a two-workflow environment with both workflows
SUCCESS: the rollup is SUCCESS. -/
theorem C2_workflow_rollup_witness :
    envWfs.has_workflows = true ∧ envWfs.overall_status = Status.success := by
  refine ⟨by decide, ?_⟩
  have h := (C2_workflow_rollup envWfs (by decide)).2.2.2
  have hres := (h (by decide) (by decide) (by decide)).1.mpr ⟨by decide, by decide⟩
  exact hres

/-- C3: every Source Adapter fetch is total and absorbs every failure mode
of its external call into the neutral result: the workflow-run fetches
yield `Status = NONE` (with no run id), the error-log fetch yields `[]`,
the commit and release fetches yield `None`, the branch-diff fetch yields
the fresh zero comparison, and the health probe records
`health_ok = false` with its diagnostic string.  (In the embedding every
adapter is a total function, so no error can propagate to the caller;
this theorem checks the value returned on each failure outcome.) -/
theorem C3_adapter_totality :
    (∀ parse repo branch wname msg fb fa,
      ((fetch_workflow_status parse repo branch wname (RunsApiOutcome.exc msg) fb fa).1.status
          = Status.none ∧
        (fetch_workflow_status parse repo branch wname (RunsApiOutcome.exc msg) fb fa).1.run_id
          = Option.none) ∧
      ((fetch_workflow_status parse repo branch wname (RunsApiOutcome.procError msg) fb fa).1.status
          = Status.none ∧
        (fetch_workflow_status parse repo branch wname (RunsApiOutcome.procError msg) fb fa).1.run_id
          = Option.none) ∧
      ((fetch_workflow_status parse repo branch wname RunsApiOutcome.emptyOutput fb fa).1.status
          = Status.none ∧
        (fetch_workflow_status parse repo branch wname RunsApiOutcome.emptyOutput fb fa).1.run_id
          = Option.none)) ∧
    (∀ parse repo branch n ao msg,
      (fetch_workflow_status_by_name parse repo branch n (RunListOutcome.exc msg) ao).1
        = { status := Status.none } ∧
      (fetch_workflow_status_by_name parse repo branch n RunListOutcome.procError ao).1
        = { status := Status.none } ∧
      (fetch_workflow_status_by_name parse repo branch n RunListOutcome.emptyData ao).1
        = { status := Status.none }) ∧
    (∀ repo rid ml,
      (fetch_error_logs repo rid LogOutcome.exc ml).1 = [] ∧
      (fetch_error_logs repo rid LogOutcome.procError ml).1 = []) ∧
    (∀ parse repo branch,
      (fetch_latest_commit parse repo branch CommitOutcome.exc).1 = Option.none ∧
      (fetch_latest_commit parse repo branch CommitOutcome.procError).1 = Option.none) ∧
    (∀ parse repo config,
      (fetch_branch_comparison parse repo config CompareOutcome.exc).1
        = { base := config.base, head := config.head } ∧
      (fetch_branch_comparison parse repo config CompareOutcome.procError).1
        = { base := config.base, head := config.head }) ∧
    (∀ parse repo,
      (fetch_latest_release parse repo ReleaseOutcome.exc).1 = Option.none ∧
      (fetch_latest_release parse repo ReleaseOutcome.procError).1 = Option.none) ∧
    (∀ env msg, env.url ≠ "" →
      ((fetch_health_check env HealthOutcome.timeout).1.health_ok = Option.some false ∧
        (fetch_health_check env HealthOutcome.timeout).1.health_error
          = Option.some "Timeout") ∧
      ((fetch_health_check env HealthOutcome.connectError).1.health_ok = Option.some false ∧
        (fetch_health_check env HealthOutcome.connectError).1.health_error
          = Option.some "Connection failed") ∧
      ((fetch_health_check env (HealthOutcome.exc msg)).1.health_ok = Option.some false ∧
        (fetch_health_check env (HealthOutcome.exc msg)).1.health_error
          = Option.some (msg.take 50))) := by
  refine ⟨?_, ?_, ?_, ?_, ?_, ?_, ?_⟩
  · intro parse repo branch wname msg fb fa
    by_cases hrb : repo = "" ∨ branch = "" <;>
      simp [fetch_workflow_status, hrb]
  · intro parse repo branch n ao msg
    exact ⟨rfl, rfl, rfl⟩
  · intro repo rid ml
    exact ⟨rfl, rfl⟩
  · intro parse repo branch
    by_cases hrb : repo = "" ∨ branch = "" <;>
      simp [fetch_latest_commit, hrb]
  · intro parse repo config
    by_cases hr : repo = "" <;>
      simp [fetch_branch_comparison, hr]
  · intro parse repo
    exact ⟨rfl, rfl⟩
  · intro env msg hurl
    simp [fetch_health_check, hurl]

/-- Witness for C3: the failure-absorption facts at concrete inputs. -/
theorem C3_adapter_totality_witness :
    (fetch_latest_commit (fun _ => Option.none) "o/r" "main" CommitOutcome.exc).1
      = Option.none ∧
    (fetch_health_check envSuccess HealthOutcome.timeout).1.health_ok
      = Option.some false := by
  constructor
  · exact (C3_adapter_totality.2.2.2.1 (fun _ => Option.none) "o/r" "main").1
  · exact ((C3_adapter_totality.2.2.2.2.2.2 envSuccess "m" (by decide)).1).1

/-- C4: on a fetched run record both workflow-run fetches classify
status/conclusion as: "completed"+"success" → SUCCESS, "completed"+other
→ FAILURE, "in_progress"/"queued"/"waiting" → RUNNING, anything else
(including a missing status, read as `""`) → NONE. -/
theorem C4_run_classification (parse : String → Option Int) (repo branch : String)
    (hr : repo ≠ "") (hb : branch ≠ "") (run : RunRecord) (fb : RunListOutcome)
    (fa : ActorOutcome) (nm : String) (run2 : ByNameRun) (ao : ActorOutcome) :
    ((fetch_workflow_status parse repo branch Option.none (RunsApiOutcome.ok run) fb fa).1.status
        = classifyRun run.status run.conclusion) ∧
    ((fetch_workflow_status_by_name parse repo branch nm (RunListOutcome.ok run2) ao).1.status
        = classifyRun run2.status run2.conclusion) ∧
    (∀ s c : String,
      ((s = "completed" ∧ c = "success") → classifyRun s c = Status.success) ∧
      ((s = "completed" ∧ c ≠ "success") → classifyRun s c = Status.failure) ∧
      ((s = "in_progress" ∨ s = "queued" ∨ s = "waiting") → classifyRun s c = Status.running) ∧
      ((s ≠ "completed" ∧ s ≠ "in_progress" ∧ s ≠ "queued" ∧ s ≠ "waiting") →
        classifyRun s c = Status.none)) := by
  refine ⟨?_, ?_, ?_⟩
  · simp [fetch_workflow_status, hr, hb, mkRunResult]
  · simp [fetch_workflow_status_by_name]
  · intro s c
    refine ⟨?_, ?_, ?_, ?_⟩
    · rintro ⟨h1, h2⟩; simp [classifyRun, h1, h2]
    · rintro ⟨h1, h2⟩; simp [classifyRun, h1, h2]
    · rintro (h1 | h1 | h1) <;> simp [classifyRun, h1]
    · rintro ⟨h1, h2, h3, h4⟩; simp [classifyRun, h1, h2, h3, h4]

/-- Witness for C4: a completed/success record classifies as SUCCESS, a
completed/failure record as FAILURE. -/
theorem C4_run_classification_witness :
    (fetch_workflow_status pnone "o/r" "main" Option.none
        (RunsApiOutcome.ok { status := "completed", conclusion := "success" })
        RunListOutcome.procError ActorOutcome.fail).1.status = Status.success ∧
    (fetch_workflow_status_by_name pnone "o/r" "main" "W"
        (RunListOutcome.ok { status := "completed", conclusion := "failure" })
        ActorOutcome.fail).1.status = Status.failure := by
  have h := C4_run_classification pnone "o/r" "main" (by decide) (by decide)
    { status := "completed", conclusion := "success" } RunListOutcome.procError
    ActorOutcome.fail "W" { status := "completed", conclusion := "failure" }
    ActorOutcome.fail
  constructor
  · rw [h.1]
    exact (h.2.2 "completed" "success").1 ⟨rfl, rfl⟩
  · rw [h.2.1]
    exact (h.2.2 "completed" "failure").2.1 ⟨rfl, by decide⟩

/-- Helper: one workflow fetch starting from empty `error_lines` leaves
the error-lines invariant intact. -/
theorem fetchOneWorkflow_errInv (parse : String → Option Int) (w : Workflow)
    (o : WfOracle) (hw : w.error_lines = []) :
    wfErrInv (fetchOneWorkflow parse w o).1 := by
  simp only [fetchOneWorkflow, wfErrInv]
  split_ifs with hg
  · intro hs
    exact absurd hg.1 hs
  · intro _
    exact hw

/-- Helper: the environment's own fetch starting from empty `error_lines`
leaves the error-lines invariant intact. -/
theorem fetchEnvOwn_errInv (parse : String → Option Int) (env : Environment)
    (o : WfOracle) (he : env.error_lines = []) :
    envErrInv (fetchEnvOwn parse env o).1 := by
  simp only [fetchEnvOwn, envErrInv]
  split_ifs with hg
  · intro hs
    exact absurd hg.1 hs
  · intro _
    exact he

/-- Helper: the environment's own fetch never touches the workflows
list. -/
theorem fetchEnvOwn_workflows (parse : String → Option Int) (env : Environment)
    (o : WfOracle) : (fetchEnvOwn parse env o).1.workflows = env.workflows := by
  simp only [fetchEnvOwn]
  split_ifs <;> rfl

/-- Helper: the environment's own fetch never touches the repo field. -/
theorem fetchEnvOwn_repo (parse : String → Option Int) (env : Environment)
    (o : WfOracle) : (fetchEnvOwn parse env o).1.repo = env.repo := by
  simp only [fetchEnvOwn]
  split_ifs <;> rfl

/-- C5 (amended): the invariant "error_lines is empty unless
Status = FAILURE" is established by a fetch that starts from empty
error_lines — a fetch writes error_lines only when the fetched status is
FAILURE with a truthy run id — but no operation ever clears error_lines:
the refresh reset keeps every error_lines field verbatim while forcing
all statuses back to LOADING, which breaks the invariant right after a
refresh that follows a FAILURE (see the counterexample). -/
theorem C5_error_lines (parse : String → Option Int) :
    (∀ w o, w.error_lines = [] → wfErrInv (fetchOneWorkflow parse w o).1) ∧
    (∀ env o, env.error_lines = [] →
      envErrInv (fetch_environment_status parse env o).1) ∧
    (∀ env o, (∀ w ∈ env.workflows, w.error_lines = []) →
      ∀ w' ∈ (fetch_environment_status parse env o).1.workflows, wfErrInv w') ∧
    (∀ a : App,
      (refreshResetApp a).dev.workflows.map (fun w => w.error_lines)
        = a.dev.workflows.map (fun w => w.error_lines) ∧
      (refreshResetApp a).prod.workflows.map (fun w => w.error_lines)
        = a.prod.workflows.map (fun w => w.error_lines) ∧
      (refreshResetApp a).dev.error_lines = a.dev.error_lines ∧
      (refreshResetApp a).prod.error_lines = a.prod.error_lines ∧
      (∀ w ∈ (refreshResetApp a).dev.workflows, w.status = Status.loading) ∧
      (∀ w ∈ (refreshResetApp a).prod.workflows, w.status = Status.loading)) := by
  refine ⟨fun w o hw => fetchOneWorkflow_errInv parse w o hw, ?_, ?_, ?_⟩
  · intro env o he
    simp only [fetch_environment_status, envErrInv]
    split_ifs with h1 h2
    · intro _; exact he
    · intro _; exact he
    · exact fun hs => fetchEnvOwn_errInv parse env o.own he hs
  · intro env o hall w' hw'
    simp only [fetch_environment_status] at hw'
    split_ifs at hw' with h1 h2
    · exact fun _ => hall w' hw'
    · rcases List.mem_map.mp hw' with ⟨pair, hpair, rfl⟩
      rcases List.mem_map.mp hpair with ⟨q, hq, rfl⟩
      have hq2 : q.2 ∈ env.workflows := by
        have hm := List.mem_map_of_mem Prod.snd hq
        rwa [List.enum_map_snd] at hm
      exact fetchOneWorkflow_errInv parse q.2 (o.wf q.1) (hall q.2 hq2)
    · rw [fetchEnvOwn_workflows parse env o.own] at hw'
      exact fun _ => hall w' hw'
  · intro a
    refine ⟨?_, ?_, rfl, rfl, ?_, ?_⟩
    · simp [refreshResetApp, List.map_map, Function.comp]
    · simp [refreshResetApp, List.map_map, Function.comp]
    · intro w hw
      rcases List.mem_map.mp hw with ⟨v, _, rfl⟩
      rfl
    · intro w hw
      rcases List.mem_map.mp hw with ⟨v, _, rfl⟩
      rfl

/-- Counterexample for C5 as stated: `appFailed` satisfies the invariant
(its one workflow has Status = FAILURE with its log attached), yet after
the refresh reset that same workflow has Status = LOADING with its stale
non-empty error_lines — the reset does not preserve the invariant. -/
theorem C5_counterexample :
    (∀ w ∈ appFailed.dev.workflows, wfErrInv w) ∧
    (∀ w ∈ appFailed.prod.workflows, wfErrInv w) ∧
    envErrInv appFailed.dev ∧ envErrInv appFailed.prod ∧
    ¬ (∀ w ∈ (refreshResetApp appFailed).dev.workflows, wfErrInv w) := by
  decide

/-- Witness for C5 (amended) at a concrete fetch: from a fresh workflow
the fetch that discovers a failure keeps the invariant. -/
theorem C5_error_lines_witness :
    wfErrInv (fetchOneWorkflow pnone wfPlain oracle42).1 :=
  (C5_error_lines pnone).1 wfPlain oracle42 rfl

/-- Helper: the environment fetch never touches the repo field. -/
theorem fetch_env_repo (parse : String → Option Int) (env : Environment)
    (o : EnvOracle) :
    (fetch_environment_status parse env o).1.repo = env.repo := by
  simp only [fetch_environment_status]
  split_ifs with h1 h2
  · rfl
  · rfl
  · exact fetchEnvOwn_repo parse env o.own

/-- C6: `fetch_app_status` always completes with `loading = false`; each
field is produced by its own sub-fetch (the environments by their
environment fetches, the comparison list by the branch-diff fetches, the
release by the release fetch), and a failing branch-diff or release
sub-step degrades only its own field to the neutral value. -/
theorem C6_app_fetcher (parse : String → Option Int) (a : App) (o : AppOracle)
    (r : String) (hrep : r = if a.dev.repo ≠ "" then a.dev.repo else a.prod.repo) :
    ((fetch_app_status parse a o).1.loading = false) ∧
    ((fetch_app_status parse a o).1.dev
      = (fetch_environment_status parse a.dev o.dev).1) ∧
    ((fetch_app_status parse a o).1.prod
      = (fetch_environment_status parse a.prod o.prod).1) ∧
    ((r ≠ "" ∧ a.compare_configs ≠ []) →
      (fetch_app_status parse a o).1.comparisons
        = a.compare_configs.enum.map
            (fun p => (fetch_branch_comparison parse r p.2 (o.compare p.1)).1)) ∧
    (¬(r ≠ "" ∧ a.compare_configs ≠ []) →
      (fetch_app_status parse a o).1.comparisons = a.comparisons) ∧
    ((a.track_releases = true ∧ r ≠ "") →
      (fetch_app_status parse a o).1.latest_release
        = (fetch_latest_release parse r o.release).1) ∧
    (¬(a.track_releases = true ∧ r ≠ "") →
      (fetch_app_status parse a o).1.latest_release = a.latest_release) ∧
    (∀ cfg : BranchCompareConfig,
      (fetch_branch_comparison parse r cfg CompareOutcome.exc).1
        = { base := cfg.base, head := cfg.head } ∧
      (fetch_branch_comparison parse r cfg CompareOutcome.procError).1
        = { base := cfg.base, head := cfg.head }) ∧
    ((fetch_latest_release parse r ReleaseOutcome.exc).1 = Option.none ∧
      (fetch_latest_release parse r ReleaseOutcome.procError).1 = Option.none) := by
  have hd := fetch_env_repo parse a.dev o.dev
  have hp := fetch_env_repo parse a.prod o.prod
  have hneut : ∀ cfg : BranchCompareConfig,
      (fetch_branch_comparison parse r cfg CompareOutcome.exc).1
        = { base := cfg.base, head := cfg.head } ∧
      (fetch_branch_comparison parse r cfg CompareOutcome.procError).1
        = { base := cfg.base, head := cfg.head } := by
    intro cfg
    by_cases hz : r = "" <;> simp [fetch_branch_comparison, hz]
  refine ⟨?_, ?_, ?_, ?_, ?_, ?_, ?_, hneut, ⟨rfl, rfl⟩⟩
  · rfl
  · simp only [fetch_app_status]
    split_ifs <;> rfl
  · simp only [fetch_app_status]
    split_ifs <;> rfl
  · intro hx
    simp only [fetch_app_status, hd, hp, ← hrep]
    split_ifs with h1 <;> simp [List.map_map, Function.comp]
  · intro hx
    simp only [fetch_app_status, hd, hp, ← hrep]
    split_ifs with h1 <;> rfl
  · intro hx
    simp only [fetch_app_status, hd, hp, ← hrep]
    split_ifs with h1 <;> rfl
  · intro hx
    simp only [fetch_app_status, hd, hp, ← hrep]
    split_ifs with h1 <;> rfl

/-- Witness for C6: on the sample app under an all-failing oracle the App
fetch still completes with `loading = false`. -/
theorem C6_app_fetcher_witness :
    (fetch_app_status pnone appSample appOracleFail).1.loading = false :=
  (C6_app_fetcher pnone appSample appOracleFail "o/r" (by decide)).1

/-- C7: with no repository configured the environment fetch returns the
environment with only its status changed to NONE — every other field
(run_id, time, duration, error_lines, workflows, last commit, url, ...) is
untouched — and the external-call trace is empty. -/
theorem C7_no_repo (parse : String → Option Int) (env : Environment)
    (o : EnvOracle) (h : env.repo = "") :
    fetch_environment_status parse env o = ({ env with status := Status.none }, []) := by
  simp [fetch_environment_status, h]

/-- Witness for C7 at a concrete repo-less environment. -/
theorem C7_no_repo_witness :
    fetch_environment_status pnone envNoRepo envOracleFail
      = ({ envNoRepo with status := Status.none }, []) :=
  C7_no_repo pnone envNoRepo envOracleFail rfl

/-- C10: an empty repository or branch short-circuits the workflow-run
fetch to `{status: NONE}` and the commit fetch to `None`, with no external
process launched (empty call trace). -/
theorem C10_empty_args (parse : String → Option Int) (repo branch : String)
    (h : repo = "" ∨ branch = "") (wname : Option String) (o : RunsApiOutcome)
    (fb : RunListOutcome) (fa : ActorOutcome) (co : CommitOutcome) :
    fetch_workflow_status parse repo branch wname o fb fa
        = ({ status := Status.none }, []) ∧
    fetch_latest_commit parse repo branch co = (Option.none, []) := by
  constructor <;> simp [fetch_workflow_status, fetch_latest_commit, h]

/-- Witness for C10 with an empty repository. -/
theorem C10_empty_args_witness :
    fetch_workflow_status pnone "" "main" Option.none
        (RunsApiOutcome.procError "x") RunListOutcome.procError ActorOutcome.fail
      = ({ status := Status.none }, []) ∧
    fetch_latest_commit pnone "" "main" CommitOutcome.procError
      = (Option.none, []) :=
  C10_empty_args pnone "" "main" (Or.inl rfl) Option.none
    (RunsApiOutcome.procError "x") RunListOutcome.procError ActorOutcome.fail
    CommitOutcome.procError

/-- Helper: the by-name fallback never performs an error-log call. -/
theorem logView_not_mem_by_name (parse : String → Option Int)
    (repo branch n : String) (fb : RunListOutcome) (ao : ActorOutcome)
    (r : String) (rid : Int) :
    Ev.logView r rid ∉ (fetch_workflow_status_by_name parse repo branch n fb ao).2 := by
  cases fb <;> simp [fetch_workflow_status_by_name] <;>
    split_ifs <;> cases ao <;> simp

/-- Helper: the workflow-run fetch never performs an error-log call. -/
theorem logView_not_mem_fws (parse : String → Option Int) (repo branch : String)
    (wname : Option String) (o : RunsApiOutcome) (fb : RunListOutcome)
    (fa : ActorOutcome) (r : String) (rid : Int) :
    Ev.logView r rid ∉ (fetch_workflow_status parse repo branch wname o fb fa).2 := by
  by_cases hrb : repo = "" ∨ branch = ""
  · simp [fetch_workflow_status, hrb]
  · cases o with
    | exc m => simp [fetch_workflow_status, hrb]
    | procError m => simp [fetch_workflow_status, hrb]
    | emptyOutput => simp [fetch_workflow_status, hrb]
    | ok run =>
      cases wname with
      | none => simp [fetch_workflow_status, hrb]
      | some n =>
        simp only [fetch_workflow_status, hrb, if_false]
        split_ifs with hm
        · intro hmem
          rcases List.mem_cons.mp hmem with hc | hc
          · exact absurd hc (by simp)
          · exact absurd hc (logView_not_mem_by_name parse repo branch n fb fa r rid)
        · simp

/-- C8 (amended): within one environment-fetch iteration, an error-log
fetch is issued iff the freshly fetched status is FAILURE and the run id
is truthy in Python's sense (present and non-zero); in that case the
fetched lines are stored in `error_lines`, otherwise `error_lines` is
left as it was.  Stated for a Workflow iteration and for the
environment's own fields alike. -/
theorem C8_error_log_chaining (parse : String → Option Int) (w : Workflow)
    (o : WfOracle) (env : Environment) (oe : WfOracle) :
    ((∃ r rid, Ev.logView r rid ∈ (fetchOneWorkflow parse w o).2) ↔
      ((fetchOneWorkflow parse w o).1.status = Status.failure ∧
        truthyId (fetchOneWorkflow parse w o).1.run_id = true)) ∧
    (((fetchOneWorkflow parse w o).1.status = Status.failure ∧
        truthyId (fetchOneWorkflow parse w o).1.run_id = true) →
      ((fetchOneWorkflow parse w o).1.error_lines
          = (fetch_error_logs w.repo
              ((fetchOneWorkflow parse w o).1.run_id.getD 0) o.logs).1 ∧
        Ev.logView w.repo ((fetchOneWorkflow parse w o).1.run_id.getD 0)
          ∈ (fetchOneWorkflow parse w o).2)) ∧
    (¬((fetchOneWorkflow parse w o).1.status = Status.failure ∧
        truthyId (fetchOneWorkflow parse w o).1.run_id = true) →
      (fetchOneWorkflow parse w o).1.error_lines = w.error_lines) ∧
    ((∃ r rid, Ev.logView r rid ∈ (fetchEnvOwn parse env oe).2) ↔
      ((fetchEnvOwn parse env oe).1.status = Status.failure ∧
        truthyId (fetchEnvOwn parse env oe).1.run_id = true)) ∧
    (((fetchEnvOwn parse env oe).1.status = Status.failure ∧
        truthyId (fetchEnvOwn parse env oe).1.run_id = true) →
      (fetchEnvOwn parse env oe).1.error_lines
        = (fetch_error_logs env.repo
            ((fetchEnvOwn parse env oe).1.run_id.getD 0) oe.logs).1) := by
  constructor
  · -- iff for the workflow iteration
    simp only [fetchOneWorkflow]
    split_ifs with hg
    · refine iff_of_true ?_ ⟨hg.1, hg.2⟩
      refine ⟨w.repo, (fetch_workflow_status parse w.repo w.branch (Option.some w.name)
        o.runs o.runList o.actor).1.run_id.getD 0, ?_⟩
      exact List.mem_append.mpr (Or.inr (by cases o.logs <;> simp [fetch_error_logs]))
    · refine iff_of_false ?_ hg
      rintro ⟨r, rid, hmem⟩
      exact absurd hmem
        (logView_not_mem_fws parse w.repo w.branch (Option.some w.name)
          o.runs o.runList o.actor r rid)
  constructor
  · -- storing the fetched lines (workflow)
    simp only [fetchOneWorkflow]
    split_ifs with hg
    · intro _
      refine ⟨rfl, ?_⟩
      exact List.mem_append.mpr (Or.inr (by cases o.logs <;> simp [fetch_error_logs]))
    · intro hx
      exact absurd hx hg
  constructor
  · -- untouched error_lines (workflow)
    simp only [fetchOneWorkflow]
    split_ifs with hg
    · intro hx
      exact absurd hg hx
    · intro _
      rfl
  constructor
  · -- iff for the environment's own fetch
    simp only [fetchEnvOwn]
    split_ifs with hg
    · refine iff_of_true ?_ ⟨hg.1, hg.2⟩
      refine ⟨env.repo, (fetch_workflow_status parse env.repo env.branch Option.none
        oe.runs oe.runList oe.actor).1.run_id.getD 0, ?_⟩
      exact List.mem_append.mpr (Or.inr (by cases oe.logs <;> simp [fetch_error_logs]))
    · refine iff_of_false ?_ hg
      rintro ⟨r, rid, hmem⟩
      exact absurd hmem
        (logView_not_mem_fws parse env.repo env.branch Option.none
          oe.runs oe.runList oe.actor r rid)
  · -- storing the fetched lines (environment's own fields)
    simp only [fetchEnvOwn]
    split_ifs with hg
    · intro _
      rfl
    · intro hx
      exact absurd hx hg

/-- Counterexample for C8 as stated: a fetch result
`{status: "completed", conclusion: "failure"}` with run id `0` gives
Status = FAILURE with a present run id (`Some 0`), yet no error-log fetch
is issued (the guard `if workflow.run_id:` treats `0` as absent) and
`error_lines` stays empty: the claimed "iff a run id is present" fails. -/
theorem C8_counterexample :
    (fetchOneWorkflow pnone wfPlain oracleZero).1.status = Status.failure ∧
    (fetchOneWorkflow pnone wfPlain oracleZero).1.run_id = Option.some 0 ∧
    (fetchOneWorkflow pnone wfPlain oracleZero).2
      = [Ev.runsApi "o/r" "main" (Option.some "Build")] ∧
    (fetchOneWorkflow pnone wfPlain oracleZero).1.error_lines = [] := by
  decide

/-- Witness for C8 (amended), the spec's run-42 scenario: a completed
failure with run id 42 yields Status = FAILURE, run_id = 42, an error-log
fetch for run 42, and the fetched line stored in `error_lines`. -/
theorem C8_error_log_chaining_witness :
    (fetchOneWorkflow pnone wfPlain oracle42).1.status = Status.failure ∧
    (fetchOneWorkflow pnone wfPlain oracle42).1.run_id = Option.some 42 ∧
    Ev.logView "o/r" 42 ∈ (fetchOneWorkflow pnone wfPlain oracle42).2 ∧
    (fetchOneWorkflow pnone wfPlain oracle42).1.error_lines
      = (fetch_error_logs "o/r" 42 (LogOutcome.ok "boom")).1 := by
  have h := (C8_error_log_chaining pnone wfPlain oracle42 envNoRepo oracleFail).2.1
    (by decide)
  have h42 : (fetchOneWorkflow pnone wfPlain oracle42).1.run_id.getD 0 = 42 := by
    decide
  refine ⟨by decide, by decide, ?_, ?_⟩
  · have hm := h.2
    rw [h42] at hm
    exact hm
  · rw [h.1, h42]
    exact rfl

/-- C9 (amended): within one environment fetch the per-workflow fetches
are issued strictly sequentially in list order — the call trace is the
in-order concatenation of each workflow's own calls (each workflow's
fetch, including its chained error-log call, completes before the next
workflow's first call), followed by the commit fetch. -/
theorem C9_sequential_workflow_fetches (parse : String → Option Int)
    (env : Environment) (o : EnvOracle) (h : env.repo ≠ "")
    (hw : env.has_workflows = true) :
    (fetch_environment_status parse env o).2
      = (env.workflows.enum.map
          (fun p => (fetchOneWorkflow parse p.2 (o.wf p.1)).2)).flatten
        ++ (fetch_latest_commit parse env.repo env.branch o.commit).2 := by
  simp only [fetch_environment_status, h, hw, List.map_map]
  rw [if_neg (by simp [h])]
  exact rfl

/-- Counterexample for C9 as stated: under an oracle that makes every
workflow fetch perform two external calls (a runs query whose workflow
name mismatches, then the `gh run list` fallback), the trace of a
two-workflow environment fetch is W1's two calls, then W2's two calls,
then the commit call — W1's fetch completes before W2's first call is
issued (last conjunct: W1's fallback call precedes W2's first call), so
the two fetches are never in flight at the same time; the loop awaits
each workflow fetch before starting the next, i.e. they are serialized,
not concurrent. -/
theorem C9_counterexample :
    (fetch_environment_status pnone envTwo oracleTwo).2
      = [Ev.runsApi "o/r" "main" (Option.some "W1"), Ev.runList "o/r" "main" "W1",
         Ev.runsApi "o/r" "main" (Option.some "W2"), Ev.runList "o/r" "main" "W2",
         Ev.commitApi "o/r" "main"] ∧
    Ev.runList "o/r" "main" "W1" ∈ (fetch_environment_status pnone envTwo oracleTwo).2 ∧
    Ev.runsApi "o/r" "main" (Option.some "W2")
      ∈ (fetch_environment_status pnone envTwo oracleTwo).2 ∧
    (fetch_environment_status pnone envTwo oracleTwo).2.indexOf
        (Ev.runList "o/r" "main" "W1")
      < (fetch_environment_status pnone envTwo oracleTwo).2.indexOf
        (Ev.runsApi "o/r" "main" (Option.some "W2")) := by
  decide

/-- Witness for C9 (amended) at the two-workflow environment. -/
theorem C9_sequential_workflow_fetches_witness :
    (fetch_environment_status pnone envTwo oracleTwo).2
      = (envTwo.workflows.enum.map
          (fun p => (fetchOneWorkflow pnone p.2 (oracleTwo.wf p.1)).2)).flatten
        ++ (fetch_latest_commit pnone envTwo.repo envTwo.branch oracleTwo.commit).2 :=
  C9_sequential_workflow_fetches pnone envTwo oracleTwo (by decide) (by decide)
